import Mathlib

/-!
# Verification of the sales-data pipeline

Shallow embedding of `src/data-transformation.py` (class `SalesDataProcessor`)
and the revenue derivation shared with `src/data-analysis.py`.

Modelling conventions:
* A pandas DataFrame is a `List` of rows.  Dates are represented as a number
  of days, with day 0 taken to be a Monday (pandas' `dayofweek` is likewise
  Monday-anchored); rows with unparseable dates terminate the run and are
  outside the model.
* A NaN cell is `Option.none`; `fillna(0)` becomes `Option.getD 0`.
* Floating-point columns are modelled by `Rat` (the scripts only add,
  multiply, divide and compare, all exact here).
* Column existence is tracked where it matters: `revenue` and `age_group`
  are derived columns that only exist after the corresponding stage; the
  `hasAgeGroup` flag on a table records whether `segment_customers` has run
  (grouping by a column that does not exist raises a `KeyError` in pandas,
  modelled with `Except`).
* `groupby` is modelled as: list of distinct keys, each paired with the
  aggregate of the rows having that key.  pandas sorts the group keys; the
  key order is irrelevant to every property proved below, so the dedup
  order of `List.dedup` is used instead.
-/

namespace PipelineFour

/-- A raw transaction row as loaded from the CSV (`self.raw_data`).
`quantity`, `unit_price` and `customer_age` may be missing (NaN). -/
structure RawRow where
  date : Nat
  store_id : Nat
  product_id : Nat
  quantity : Option Int
  unit_price : Option Rat
  customer_age : Option Int
deriving Repr, DecidableEq

/-- A row of the in-memory table after cleaning.  `fillna(0)` has replaced
missing numeric cells, so the base columns are total.  `revenue` and
`age_group` are the derived columns added by `calculate_metrics` and
`segment_customers`; `none` means the stage has not filled the cell. -/
structure Row where
  date : Nat
  store_id : Nat
  product_id : Nat
  quantity : Int
  unit_price : Rat
  customer_age : Int
  revenue : Option Rat
  age_group : Option String
deriving Repr, DecidableEq

/-- The processed table: its rows plus whether the `age_group` column
exists (it is created only by `segment_customers`). -/
structure Table where
  rows : List Row
  hasAgeGroup : Bool
deriving Repr, DecidableEq

/-- `SalesDataProcessor`: the loaded raw table and the lazily produced
processed table (`self.processed_data`, `None` until `clean_data` runs). -/
structure Processor where
  raw_data : List RawRow
  processed_data : Option Table
deriving Repr, DecidableEq

/-- `df.fillna(0)` applied to one row (the date is already parsed). -/
def fillRow (r : RawRow) : Row :=
  { date := r.date
    store_id := r.store_id
    product_id := r.product_id
    quantity := r.quantity.getD 0
    unit_price := r.unit_price.getD 0
    customer_age := r.customer_age.getD 0
    revenue := none
    age_group := none }

/-- Body of `clean_data`: parse dates, fill missing values with 0, then
keep only rows with `quantity <= 100` and `unit_price <= 1000`
(`df = df[(df['quantity'] <= 100) & (df['unit_price'] <= 1000)]`). -/
def cleanRows (t : List RawRow) : List Row :=
  (t.map fillRow).filter fun r =>
    decide (r.quantity ≤ 100) && decide (r.unit_price ≤ 1000)

/-- `clean_data`: works on a copy of `raw_data` and stores the result in
`processed_data`; the `age_group` column does not exist yet. -/
def clean_data (p : Processor) : Processor :=
  { p with processed_data := some { rows := cleanRows p.raw_data, hasAgeGroup := false } }

/-- The `if self.processed_data is None: self.clean_data()` guard shared by
the later stages: the table those stages operate on. -/
def ensureClean (p : Processor) : Table :=
  match p.processed_data with
  | none => { rows := cleanRows p.raw_data, hasAgeGroup := false }
  | some t => t

/-- `get_processed_data`: raises unless the pipeline has produced a table. -/
def get_processed_data (p : Processor) : Except String Table :=
  match p.processed_data with
  | none => .error "Data has not been processed yet. Call process() method first."
  | some t => .ok t

/-- The revenue column assignment shared by both scripts
(`df['revenue'] = df['quantity'] * df['unit_price']`). -/
def addRevenue (r : Row) : Row :=
  { r with revenue := some ((r.quantity : Rat) * r.unit_price) }

/-- `groupby(key)[val].sum()`: one output row per distinct key, carrying the
sum of `val` over the rows with that key.  (pandas sorts the keys; the key
order plays no role in any property below.) -/
def groupSum {α κ : Type} [DecidableEq κ] (key : α → κ) (val : α → Rat)
    (l : List α) : List (κ × Rat) :=
  ((l.map key).dedup).map fun k =>
    (k, ((l.filter fun a => decide (key a = k)).map val).sum)

/-- Reading the `revenue` column of a row (0 for a cell the assignment has
not touched; in `calculate_metrics` the column is always assigned first). -/
def revVal (r : Row) : Rat := r.revenue.getD 0

/-- `groupby('date')['revenue'].sum()` — the daily-sales aggregation. -/
def dailySales (rows : List Row) : List (Nat × Rat) :=
  groupSum (fun r => r.date) revVal rows

/-- `resample('W-Mon', on='date')` bucket label of a date: weekly bins that
are right-closed on Monday, labelled by the closing Monday.  With day 0 a
Monday, this is the smallest multiple of 7 that is `≥ d`. -/
def weekLabel (d : Nat) : Nat := ((d + 6) / 7) * 7

/-- The weekly-revenue-by-store computation of `calculate_metrics`, step by
step as written: resample the whole table into weekly buckets and sum the
revenue (across all stores), `reset_index`, merge with the `(date,
store_id)` pairs of the table on `date` (so a week-label row matches every
transaction whose raw date equals the label), then group the merged rows by
`(store_id, date)` and sum.  Empty resample bins carry no rows, and their
labels (Mondays with no transaction in the closing week) never equal a raw
date of the table, so they cannot survive the inner merge and are omitted. -/
def weeklyRevenue (rows : List Row) : List ((Nat × Nat) × Rat) :=
  let wt := groupSum (fun r => weekLabel r.date) revVal rows
  let merged := wt.flatMap fun pr =>
    (rows.filter fun r => decide (r.date = pr.1)).map fun r =>
      ((r.store_id, pr.1), pr.2)
  groupSum (fun m => m.1) (fun m => m.2) merged

/-- The spec's description of summary 2, written from its words for
comparison with `weeklyRevenue`: for a store and a week bucket, the sum of
the revenue of that store's rows whose dates fall in that week. -/
def specStoreWeekRevenue (rows : List Row) (s w : Nat) : Rat :=
  ((rows.filter fun r => decide (r.store_id = s) && decide (weekLabel r.date = w)).map
    revVal).sum

/-- The five age bins of `segment_customers`
(`bins = [0, 18, 25, 35, 50, np.inf]`): each entry is a lower bound with an
optional upper bound, standing for the interval `(lo, hi]` (`pd.cut` is
right-closed by default) or `(lo, ∞)` for the last. -/
def age_bins : List (Int × Option Int) :=
  [(0, some 18), (18, some 25), (25, some 35), (35, some 50), (50, none)]

/-- `labels = ['Under 18', '18-25', '26-35', '36-50', 'Over 50']`. -/
def age_labels : List String :=
  ["Under 18", "18-25", "26-35", "36-50", "Over 50"]

/-- Membership of an age in one bin: `lo < a` and, when bounded, `a ≤ hi`. -/
def inAgeBin (b : Int × Option Int) (a : Int) : Bool :=
  decide (b.1 < a) &&
    (match b.2 with
     | some hi => decide (a ≤ hi)
     | none => true)

/-- `pd.cut(ages, bins=bins, labels=labels)` applied to one age: the label
of the bin containing the age, NaN (`none`) when no bin does. -/
def ageGroupOf (a : Int) : Option String :=
  ((age_bins.zip age_labels).find? fun pr => inAgeBin pr.1 a).map Prod.snd

/-- `segment_customers`: lazily clean, then add the `age_group` column. -/
def segment_customers (p : Processor) : Processor :=
  let t := ensureClean p
  { p with
    processed_data := some
      { rows := t.rows.map fun r => { r with age_group := ageGroupOf r.customer_age }
        hasAgeGroup := true } }

/-- `groupby(['product_id', 'age_group'])['quantity'].mean()`: rows whose
`age_group` is NaN are dropped by the group-by, and each group reports the
mean quantity. -/
def avgQuantity (rows : List Row) : List ((Nat × String) × Rat) :=
  let valid := rows.filter fun r => r.age_group.isSome
  let key := fun r : Row => (r.product_id, r.age_group.getD "")
  ((valid.map key).dedup).map fun k =>
    (k, ((valid.filter fun r => decide (key r = k)).map fun r => (r.quantity : Rat)).sum /
        ((valid.filter fun r => decide (key r = k)).length : Rat))

/-- The tables `calculate_metrics` computes.  The month/quarter resamples
depend on the civil calendar and are exercised by no property below, so the
record keeps the daily, weekly and product/age-group summaries. -/
structure Metrics where
  daily_sales : List (Nat × Rat)
  weekly_revenue : List ((Nat × Nat) × Rat)
  avg_quantity : List ((Nat × String) × Rat)
deriving Repr, DecidableEq

/-- `calculate_metrics`: lazily clean, assign the `revenue` column (stored
back into `processed_data`), then compute the grouped summaries.  Grouping
by `age_group` when `segment_customers` has not created that column raises
`KeyError: 'age_group'` in pandas, modelled by the `Except.error` branch. -/
def calculate_metrics (p : Processor) : Processor × Except String Metrics :=
  let t := ensureClean p
  let newRows := t.rows.map addRevenue
  let p2 : Processor :=
    { p with processed_data := some { rows := newRows, hasAgeGroup := t.hasAgeGroup } }
  (p2,
    if t.hasAgeGroup then
      Except.ok
        { daily_sales := dailySales newRows
          weekly_revenue := weeklyRevenue newRows
          avg_quantity := avgQuantity newRows }
    else Except.error "age_group")

/-- Example raw table: one well-formed transaction. -/
def exRawC2 : List RawRow := [⟨0, 1, 1, some 5, some 10, some 30⟩]

/-- A raw row with a negative (non-missing) quantity. -/
def rawNegRow : RawRow := ⟨0, 1, 1, some (-5), some 1, some 30⟩

/-- Processor for the revenue example (quantity 5, unit price 10). -/
def exC1proc : Processor := ⟨[⟨0, 1, 1, some 5, some 10, some 30⟩], none⟩

/-- Processor with customers aged 17 and 18. -/
def exC3proc : Processor :=
  ⟨[⟨0, 1, 1, some 1, some 1, some 17⟩, ⟨0, 1, 1, some 1, some 1, some 18⟩], none⟩

/-- Processed rows for the weekly-revenue example: a store-1 transaction of
revenue 10 on day 7 (a Monday) and a store-2 transaction of revenue 5 on
day 6; both fall in the week labelled 7. -/
def exC7rows : List Row :=
  [⟨7, 1, 1, 1, 10, 30, some 10, none⟩, ⟨6, 2, 1, 1, 5, 30, some 5, none⟩]

/-- A freshly constructed processor: loaded but never cleaned. -/
def exC8proc : Processor := ⟨[⟨0, 1, 1, some 1, some 1, some 30⟩], none⟩

end PipelineFour

namespace PipelineFour

/-- C2: every row of the table produced by `clean_data` satisfies
`quantity ≤ 100` and `unit_price ≤ 1000`. -/
theorem clean_data_bounds (p : Processor) (t : Table) (r : Row)
    (h1 : (clean_data p).processed_data = some t) (h2 : r ∈ t.rows) :
    r.quantity ≤ 100 ∧ r.unit_price ≤ 1000 := by
  simp only [clean_data, Option.some.injEq] at h1
  subst h1
  simp only [cleanRows, List.mem_filter, Bool.and_eq_true, decide_eq_true_eq] at h2
  exact h2.2

/-- Concrete instantiation of `clean_data_bounds`. -/
theorem clean_data_bounds_witness :
    (fillRow ⟨0, 1, 1, some 5, some 10, some 30⟩).quantity ≤ 100 ∧
      (fillRow ⟨0, 1, 1, some 5, some 10, some 30⟩).unit_price ≤ 1000 :=
  clean_data_bounds ⟨exRawC2, none⟩ ⟨cleanRows exRawC2, false⟩ _ rfl (by decide)

/-- C10: `clean_data` works on a copy; the stored raw table is unchanged. -/
theorem clean_data_preserves_raw (p : Processor) :
    (clean_data p).raw_data = p.raw_data := rfl

/-- C9: `get_processed_data` raises exactly when the pipeline has not run,
and otherwise returns the processed table unchanged. -/
theorem get_processed_data_spec (p : Processor) :
    (p.processed_data = none ↔
      get_processed_data p =
        .error "Data has not been processed yet. Call process() method first.") ∧
    (∀ t, p.processed_data = some t → get_processed_data p = .ok t) := by
  cases h : p.processed_data <;> simp [get_processed_data, h]

/-- Concrete instantiation of `get_processed_data_spec` on both branches. -/
theorem get_processed_data_spec_witness :
    get_processed_data ⟨[], none⟩ =
        .error "Data has not been processed yet. Call process() method first." ∧
      get_processed_data ⟨[], some ⟨[], false⟩⟩ = .ok ⟨[], false⟩ :=
  ⟨(get_processed_data_spec ⟨[], none⟩).1.mp rfl,
   (get_processed_data_spec ⟨[], some ⟨[], false⟩⟩).2 ⟨[], false⟩ rfl⟩

/-- C1: every row of the table stored by `calculate_metrics` carries
`revenue = quantity * unit_price`, exactly. -/
theorem revenue_column_correct (p : Processor) (tbl : Table) (r : Row)
    (h1 : (calculate_metrics p).1.processed_data = some tbl) (h2 : r ∈ tbl.rows) :
    r.revenue = some ((r.quantity : Rat) * r.unit_price) := by
  simp only [calculate_metrics, Option.some.injEq] at h1
  subst h1
  simp only at h2
  obtain ⟨r0, _, rfl⟩ := List.mem_map.mp h2
  simp [addRevenue]

/-- Concrete instantiation of `revenue_column_correct`: quantity 5 at unit
price 10 yields revenue 50. -/
theorem revenue_column_correct_witness :
    (addRevenue (fillRow ⟨0, 1, 1, some 5, some 10, some 30⟩)).revenue = some 50 := by
  have h := revenue_column_correct exC1proc
      ⟨[addRevenue (fillRow ⟨0, 1, 1, some 5, some 10, some 30⟩)], false⟩
      (addRevenue (fillRow ⟨0, 1, 1, some 5, some 10, some 30⟩)) rfl (by simp)
  rw [h]
  norm_num [addRevenue, fillRow]

/-- C5 fails as stated: `clean_data` only filters `quantity > 100`, so a
negative (non-missing) quantity survives cleaning. -/
theorem clean_data_negative_quantity :
    (clean_data ⟨[rawNegRow], none⟩).processed_data =
        some ⟨[fillRow rawNegRow], false⟩ ∧
      fillRow rawNegRow ∈ [fillRow rawNegRow] ∧
      (fillRow rawNegRow).quantity < 0 := by
  refine ⟨rfl, by decide, by decide⟩

/-- C5, amended: when every present input quantity is non-negative (missing
ones are filled with 0), every row produced by `clean_data` has
`0 ≤ quantity ≤ 100`. -/
theorem clean_data_quantity_bounds (p : Processor) (t : Table) (r : Row)
    (h0 : ∀ rr ∈ p.raw_data, ∀ q, rr.quantity = some q → 0 ≤ q)
    (h1 : (clean_data p).processed_data = some t) (h2 : r ∈ t.rows) :
    0 ≤ r.quantity ∧ r.quantity ≤ 100 := by
  simp only [clean_data, Option.some.injEq] at h1
  subst h1
  simp only [cleanRows, List.mem_filter, List.mem_map, Bool.and_eq_true,
    decide_eq_true_eq] at h2
  obtain ⟨⟨rr, hrr, rfl⟩, hq, _⟩ := h2
  refine ⟨?_, hq⟩
  rcases hrw : rr.quantity with _ | q
  · simp [fillRow, hrw]
  · have hpos := h0 rr hrr q hrw
    simp [fillRow, hrw, hpos]

/-- Concrete instantiation of `clean_data_quantity_bounds`. -/
theorem clean_data_quantity_bounds_witness :
    0 ≤ (fillRow ⟨0, 1, 1, some 5, some 10, some 30⟩).quantity ∧
      (fillRow ⟨0, 1, 1, some 5, some 10, some 30⟩).quantity ≤ 100 := by
  refine clean_data_quantity_bounds ⟨exRawC2, none⟩ ⟨cleanRows exRawC2, false⟩ _
    ?_ rfl (by decide)
  intro rr hrr q hq
  simp only [exRawC2, List.mem_singleton] at hrr
  subst hrr
  simp only [Option.some.injEq] at hq
  omega

/-- Summing an `if key = k then v + S k else S k` over a key list that does
not contain `key` leaves the sum unchanged. -/
theorem sum_map_ite_of_not_mem {κ : Type} [DecidableEq κ] (ks : List κ) (k : κ)
    (v : Rat) (S : κ → Rat) (h : k ∉ ks) :
    (ks.map fun k2 => if k = k2 then v + S k2 else S k2).sum = (ks.map S).sum := by
  induction ks with
  | nil => rfl
  | cons a l ih =>
    have hka : k ≠ a := by rintro rfl; exact h (List.mem_cons_self _ _)
    have hkl : k ∉ l := fun hm => h (List.mem_cons_of_mem _ hm)
    simp [if_neg hka, ih hkl]

/-- Summing an `if key = k then v + S k else S k` over a duplicate-free key
list containing `key` adds `v` exactly once. -/
theorem sum_map_ite_of_mem {κ : Type} [DecidableEq κ] (ks : List κ) (k : κ)
    (v : Rat) (S : κ → Rat) (hnd : ks.Nodup) (hm : k ∈ ks) :
    (ks.map fun k2 => if k = k2 then v + S k2 else S k2).sum =
      v + (ks.map S).sum := by
  induction ks with
  | nil => cases hm
  | cons a l ih =>
    rcases List.mem_cons.mp hm with rfl | hm2
    · have hnl : k ∉ l := (List.nodup_cons.mp hnd).1
      simp [sum_map_ite_of_not_mem l k v S hnl, add_assoc]
    · have hka : k ≠ a := by
        rintro rfl; exact (List.nodup_cons.mp hnd).1 hm2
      have hrec := ih (List.nodup_cons.mp hnd).2 hm2
      simp only [List.map_cons, List.sum_cons, if_neg hka, hrec]
      ring

/-- A group-by-and-sum over any duplicate-free key list covering all rows
accounts for every row exactly once. -/
theorem groupSum_aux {α κ : Type} [DecidableEq κ] (key : α → κ) (val : α → Rat)
    (rows : List α) (ks : List κ) (hnd : ks.Nodup)
    (hcov : ∀ a ∈ rows, key a ∈ ks) :
    (ks.map fun k => ((rows.filter fun a => decide (key a = k)).map val).sum).sum =
      (rows.map val).sum := by
  induction rows with
  | nil => simp
  | cons a rs ih =>
    have hmem : key a ∈ ks := hcov a (List.mem_cons_self _ _)
    have hcov2 : ∀ b ∈ rs, key b ∈ ks := fun b hb => hcov b (List.mem_cons_of_mem _ hb)
    have hfun : ∀ k ∈ ks,
        (((a :: rs).filter fun x => decide (key x = k)).map val).sum =
          if key a = k then
            val a + ((rs.filter fun x => decide (key x = k)).map val).sum
          else ((rs.filter fun x => decide (key x = k)).map val).sum := by
      intro k _
      by_cases h : key a = k
      · simp [List.filter_cons, h]
      · simp [List.filter_cons, h]
    rw [List.map_congr_left hfun,
      sum_map_ite_of_mem ks (key a) (val a) _ hnd hmem, ih hcov2]
    simp

/-- C6: the per-day totals of the daily aggregation sum to the sum of the
revenue column over the whole table. -/
theorem dailySales_total (rows : List Row) :
    ((dailySales rows).map Prod.snd).sum = (rows.map revVal).sum := by
  unfold dailySales groupSum
  rw [List.map_map]
  exact groupSum_aux (fun r => r.date) revVal rows _ (List.nodup_dedup _)
    (fun a ha => List.mem_dedup.mpr (List.mem_map_of_mem _ ha))

/-- C3: `pd.cut` with `bins = [0, 18, 25, 35, 50, inf]` is right-closed, so
`segment_customers` labels both the 17- and the 18-year-old customer
"Under 18" (the interval is `(0, 18]`), not "18-25" as the spec's partition
`[0,18), [18,25], ...` would. -/
theorem segment_customers_boundary_18 :
    ((segment_customers exC3proc).processed_data.map fun t =>
        t.rows.map Row.age_group) =
      some [some "Under 18", some "Under 18"] := by decide

/-- C4 fails as stated: age 0 is non-negative, yet it falls in none of the
five bins (all are left-open), so `pd.cut` yields NaN for it. -/
theorem age_zero_unbucketed :
    0 ≤ (0 : Int) ∧ ageGroupOf 0 = none ∧
      ((age_bins.zip age_labels).filter fun pr => inAgeBin pr.1 (0 : Int)).length = 0 := by
  decide

/-- C4, amended: every positive age lies in exactly one of the five bins,
and `pd.cut` assigns it a label. -/
theorem ageGroup_total_unique (a : Int) (ha : 0 < a) :
    ((age_bins.zip age_labels).filter fun pr => inAgeBin pr.1 a).length = 1 ∧
      (ageGroupOf a).isSome = true := by
  have h5 : (0 < a ∧ a ≤ 18) ∨ (18 < a ∧ a ≤ 25) ∨ (25 < a ∧ a ≤ 35) ∨
      (35 < a ∧ a ≤ 50) ∨ 50 < a := by omega
  rcases h5 with ⟨h1, h2⟩ | ⟨h1, h2⟩ | ⟨h1, h2⟩ | ⟨h1, h2⟩ | h1
  · simp [age_bins, age_labels, ageGroupOf, inAgeBin, h1, h2,
      show ¬(18:Int) < a by omega, show ¬(25:Int) < a by omega,
      show ¬(35:Int) < a by omega, show ¬(50:Int) < a by omega]
  · simp [age_bins, age_labels, ageGroupOf, inAgeBin, h1, h2,
      show (0:Int) < a by omega, show ¬a ≤ 18 by omega,
      show ¬(25:Int) < a by omega, show ¬(35:Int) < a by omega,
      show ¬(50:Int) < a by omega]
  · simp [age_bins, age_labels, ageGroupOf, inAgeBin, h1, h2,
      show (0:Int) < a by omega, show ¬a ≤ 18 by omega,
      show (18:Int) < a by omega, show ¬a ≤ 25 by omega,
      show ¬(35:Int) < a by omega, show ¬(50:Int) < a by omega]
  · simp [age_bins, age_labels, ageGroupOf, inAgeBin, h1, h2,
      show (0:Int) < a by omega, show ¬a ≤ 18 by omega,
      show (18:Int) < a by omega, show ¬a ≤ 25 by omega,
      show (25:Int) < a by omega, show ¬a ≤ 35 by omega,
      show ¬(50:Int) < a by omega]
  · simp [age_bins, age_labels, ageGroupOf, inAgeBin, h1,
      show (0:Int) < a by omega, show ¬a ≤ 18 by omega,
      show (18:Int) < a by omega, show ¬a ≤ 25 by omega,
      show (25:Int) < a by omega, show ¬a ≤ 35 by omega,
      show (35:Int) < a by omega, show ¬a ≤ 50 by omega]

/-- Concrete instantiation of `ageGroup_total_unique` at age 30. -/
theorem ageGroup_total_unique_witness :
    ((age_bins.zip age_labels).filter fun pr => inAgeBin pr.1 (30 : Int)).length = 1 ∧
      (ageGroupOf 30).isSome = true :=
  ageGroup_total_unique 30 (by decide)

/-- C7 fails on the code: on `exC7rows` the weekly-by-store computation
reports revenue 15 for store 1 in the week labelled 7 — the whole-table
weekly total — although store 1's own rows of that week sum to 10, and
store 2 (whose rows sum to 5) is absent from the summary altogether. -/
theorem weeklyRevenue_diverges :
    weeklyRevenue exC7rows = [((1, 7), 15)] ∧
      specStoreWeekRevenue exC7rows 1 7 = 10 ∧
      specStoreWeekRevenue exC7rows 2 7 = 5 := by
  refine ⟨?_, ?_, ?_⟩
  · norm_num [weeklyRevenue, groupSum, revVal, weekLabel, exC7rows, List.flatMap,
      List.dedup]
  · norm_num [specStoreWeekRevenue, revVal, weekLabel, exC7rows]
  · norm_num [specStoreWeekRevenue, revVal, weekLabel, exC7rows]

/-- C8: on a freshly loaded processor `calculate_metrics` does run the lazy
clean (it behaves exactly as after an explicit `clean_data`), but it then
fails: the average-quantity summary groups by the `age_group` column, which
only `segment_customers` creates, so pandas raises `KeyError: 'age_group'`. -/
theorem calculate_metrics_lazy_clean_then_keyerror :
    exC8proc.processed_data = none ∧
      calculate_metrics exC8proc = calculate_metrics (clean_data exC8proc) ∧
      (calculate_metrics exC8proc).2 = Except.error "age_group" :=
  ⟨rfl, rfl, rfl⟩

end PipelineFour
